import Mathlib

/-!
Formal model of the SampSharp host-side server core (`src/SampSharp/server.cpp`):
the connection state machine, the framed command dispatcher and the synchronous
drain-for-reply engine, together with theorems settling the specified
properties.

The transport, the native registry and the callback registry are external
collaborators of the core; they are modelled from the spec's interface
contracts.  The inbound byte channel is modelled as an explicit schedule of
receive outcomes (`inbox`); the boolean outcomes of transport `setup` and
`connect` attempts are modelled as an oracle stream (`env`).  An exhausted
schedule is modelled as the transport reporting a dead connection, which is
the only way the blocking drain loop can return once no further data will
ever arrive.
-/

namespace SampSharp

/-- Receive-side wire command identifier: request a pong. -/
def CMD_PING : Nat := 0x01
/-- Receive-side wire command identifier: print data. -/
def CMD_PRINT : Nat := 0x02
/-- Receive-side wire command identifier: response to a public call. -/
def CMD_RESPONSE : Nat := 0x03
/-- Receive-side wire command identifier: expect the client to reconnect. -/
def CMD_RECONNECT : Nat := 0x04
/-- Receive-side wire command identifier: register a public call. -/
def CMD_REGISTER_CALL : Nat := 0x05
/-- Receive-side wire command identifier: return a native id. -/
def CMD_FIND_NATIVE : Nat := 0x06
/-- Receive-side wire command identifier: invoke a native. -/
def CMD_INVOKE_NATIVE : Nat := 0x07
/-- Receive-side wire command identifier: start sending messages. -/
def CMD_START : Nat := 0x08
/-- Send-side wire command identifier: server tick. -/
def CMD_TICK : Nat := 0x11
/-- Send-side wire command identifier: ping reply. -/
def CMD_PONG : Nat := 0x12
/-- Send-side wire command identifier: public call. -/
def CMD_PUBLIC_CALL : Nat := 0x13
/-- Send-side wire command identifier: reply to find-native or native invoke. -/
def CMD_REPLY : Nat := 0x14
/-- Send-side wire command identifier: announce with version. -/
def CMD_ANNOUNCE : Nat := 0x15

/-- Modelled from the spec: the announcement carries the protocol version
(from `version.h`, which is outside the given sources); the concrete value
is irrelevant to every claim. -/
def PLUGIN_PROTOCOL_VERSION : Nat := 2

/-- Modelled from the spec: the announcement carries the plugin build
version (from `version.h`, which is outside the given sources); the
concrete value is irrelevant to every claim. -/
def PLUGIN_VERSION : Nat := 0

/-- The event name whose arrival marks game-world initialisation. -/
def nameGMI : String := "OnGameModeInit"

/-- The event name whose arrival marks game-world teardown. -/
def nameGME : String := "OnGameModeExit"

/-- The console command issued by the gmx start method. -/
def rconGMX : String := "gmx"

/-- Log tag for an unexpected client disconnect. -/
def errUnexpectedDisconnect : String := "unexpected_disconnect_of_client"

/-- Log tag for a missing or empty reply to a forwarded public call. -/
def errNoResponse : String := "received_no_response_to_callback"

/-- Log tag for a missing or empty reply to the synthesised init call. -/
def errNoResponseInit : String := "received_no_response_to_OnGameModeInit"

/-- Log tag for an unknown start mode byte. -/
def errInvalidStartMode : String := "invalid_game_mode_start_mode"

/-- Log tag for a reply that surfaces in the tick loop with nobody waiting. -/
def errUnhandledInTick : String := "unhandled_response_in_tick"

/-- Dispatch outcome of pulling one command, mirroring the `cmd_status`
enumeration used by `server.cpp`. -/
inductive cmd_status
  | handled
  | unhandled
  | no_cmd
  | conn_dead
deriving DecidableEq, Repr

/-- One framed outbound message: a command identifier plus payload bytes. -/
structure Frame where
  cmd : Nat
  payload : List Nat
deriving DecidableEq, Repr

/-- One outcome of a transport `receive` call: a framed message, nothing
pending, or a dead connection. -/
inductive RecvRes
  | frame (cmd : Nat) (payload : List Nat)
  | no_cmd
  | conn_dead
deriving DecidableEq, Repr

/-- The complete state of the server instance: the status flags of the
connection state machine, the modelled transport state, the two external
registries, the observable output traces, and the environment schedules. -/
structure ServerState where
  clientConnected : Bool := false
  clientStarted : Bool := false
  clientReceivedInit : Bool := false
  serverReceivedInit : Bool := false
  clientReconnecting : Bool := false
  /-- Transport-level `is_connected()`. -/
  tconnected : Bool := false
  /-- Transport-level `is_ready()`. -/
  tready : Bool := false
  /-- Contents of the external native registry (registered name buffers). -/
  natives : List (List Nat) := []
  /-- Contents of the external callback registry (registered event names). -/
  callbacks : List String := []
  /-- Trace of frames sent over the transport, oldest first. -/
  sent : List Frame := []
  /-- Trace of payloads forwarded to the console output by `cmd_print`. -/
  printed : List (List Nat) := []
  /-- Trace of console commands issued through `sampgdk_SendRconCommand`. -/
  rcon : List String := []
  /-- Trace of logged errors (tags only). -/
  errors : List String := []
  /-- Remaining schedule of transport receive outcomes. -/
  inbox : List RecvRes := []
  /-- Oracle stream of boolean outcomes for transport setup and connect. -/
  env : List Bool := []
deriving DecidableEq, Repr

/-- Pop one boolean outcome from the environment oracle; an exhausted
oracle yields failure. -/
def popEnv (s : ServerState) : Bool × ServerState :=
  (s.env.headD false, { s with env := s.env.tail })

/-- Append one outbound frame to the transport send trace. -/
def sendFrame (s : ServerState) (c : Nat) (p : List Nat) : ServerState :=
  { s with sent := s.sent ++ [⟨c, p⟩] }

/-- Append one error tag to the error log. -/
def logError (s : ServerState) (e : String) : ServerState :=
  { s with errors := s.errors ++ [e] }

/-- Little-endian 4-byte encoding of a 32-bit value. -/
def encode32 (n : Nat) : List Nat :=
  [n % 256, n / 256 % 256, n / 65536 % 256, n / 16777216 % 256]

/-- The 32-bit value formed from bytes 1 through 4 of a reply buffer,
little-endian, as read by `*((uint32_t *)(response + 1))`. -/
def le32 (bs : List Nat) : Nat :=
  bs.getD 1 0 + 256 * bs.getD 2 0 + 65536 * bs.getD 3 0 +
    16777216 * bs.getD 4 0

/-- Modelled from the spec: the external native registry's `get_handle`
maps a name buffer to a 32-bit handle, with an all-ones sentinel (a
negative signed value) when the name was never registered. -/
def get_handle (ns : List (List Nat)) (b : List Nat) : Nat :=
  if b ∈ ns then ns.findIdx (fun x => x == b) else 4294967295

/-- Modelled from the spec: the external native registry's `invoke`
marshals arguments, calls the native and marshals the result into the
scratch buffer; its output is unconstrained by the spec and no claim
depends on it, so it is modelled as echoing the request bytes. -/
def invoke_native (_ns : List (List Nat)) (req : List Nat) : List Nat :=
  req

/-- Modelled from the spec: the external callback registry's
`register_from_buffer` performs bulk registration of remote event names;
modelled as decoding the payload bytes to one name. -/
def decodeName (p : List Nat) : String :=
  String.mk (p.map Char.ofNat)

/-- Modelled from the spec: the external callback registry's
`fill_call_buffer` serialises an event call into the scratch buffer and
returns its length, with length 0 meaning that no remote handler is
registered for the event and nothing is to be sent. -/
def fill_call_buffer (cbs : List String) (name : String) : List Nat :=
  if name ∈ cbs then name.toList.map Char.toNat else []

/-- Value of `server::is_client_connected`: the transport reports
connected and the `client_connected` status flag is set. -/
def is_client_connected (s : ServerState) : Bool :=
  s.tconnected && s.clientConnected

/-- Value and effect of `server::cmd_send_announce`: send the protocol
version and build version to the newly connected peer. -/
def cmd_send_announce (s : ServerState) : ServerState :=
  sendFrame s CMD_ANNOUNCE
    (encode32 PLUGIN_PROTOCOL_VERSION ++ encode32 PLUGIN_VERSION)

/-- Effect of `server::connect`: succeed immediately when the transport is
already connected; otherwise ensure the transport is set up, ask it to
connect, and on success set `client_connected`, send the announcement
unless this is an expected reconnect, and clear `client_reconnecting`. -/
def connect (s : ServerState) : ServerState × Bool :=
  if s.tconnected then (s, true)
  else
    let step1 : ServerState × Bool :=
      if s.tready then (s, true)
      else
        let p := popEnv s
        ({ p.2 with tready := p.1 }, p.1)
    if !step1.2 then (step1.1, false)
    else
      let p2 := popEnv step1.1
      if !p2.1 then (p2.2, false)
      else
        let s2 := { p2.2 with tconnected := true, clientConnected := true }
        let s3 := if s2.clientReconnecting then s2 else cmd_send_announce s2
        ({ s3 with clientReconnecting := false }, true)

/-- Effect of `server::disconnect`: a no-op when the client is not
considered connected; otherwise, on an unexpected disconnect, log the
reason, clear `client_started` and wipe both registries; in every case
tear the transport down, re-arm it with a fresh setup, and clear
`client_connected`. -/
def disconnect (s : ServerState) (expected : Bool) : ServerState :=
  if !is_client_connected s then s
  else
    let s1 :=
      if expected then s
      else
        { s with errors := s.errors ++ [errUnexpectedDisconnect],
                 clientStarted := false, natives := [], callbacks := [] }
    let s2 := { s1 with tconnected := false, tready := false }
    let p := popEnv s2
    let s3 := { p.2 with tready := p.1 }
    { s3 with clientConnected := false }

/-- The four entry points of the reentrant receive engine, merged into one
fuel-indexed interpreter so that the nested drain inside the start handler
is expressible by structural recursion. -/
inductive Call
  | drain
  | receive_one (resp : Option (List Nat)) (len : Nat)
  | process (cmd : Nat) (buf : List Nat) (resp : Option (List Nat)) (len : Nat)
  | start (payload : List Nat)
deriving DecidableEq, Repr

/-- Result quadruple of one engine call: the new state, the dispatch
status, and the response out-parameters (owned reply bytes and length). -/
abbrev DispatchResult := ServerState × cmd_status × Option (List Nat) × Nat

/-- The receive engine of `server.cpp`, fuel-indexed.  `Call.drain` is
`cmd_receive_unhandled`, `Call.receive_one` is `cmd_receive_one`,
`Call.process` is `cmd_process` and `Call.start` is the `cmd_start`
handler.  Fuel only limits recursion depth; the canonical wrappers below
supply enough fuel for the given inbox schedule. -/
def exec : Nat → Call → ServerState → DispatchResult
  | 0, _, s => (s, .conn_dead, none, 0)
  | f + 1, .drain, s =>
    let r := exec f (.receive_one none 0) s
    match r.2.1 with
    | .handled => exec f .drain r.1
    | .no_cmd => exec f .drain r.1
    | _ => r
  | f + 1, .receive_one r0 l0, s =>
    let c := connect s
    if !c.2 then (c.1, .conn_dead, r0, l0)
    else
      match c.1.inbox with
      | [] => (c.1, .conn_dead, r0, l0)
      | e :: rest =>
        let s1 := { c.1 with inbox := rest }
        match e with
        | .no_cmd => (s1, .no_cmd, r0, l0)
        | .conn_dead => (s1, .conn_dead, r0, l0)
        | .frame cm p => exec f (.process cm p r0 l0) s1
  | f + 1, .process cm p r0 l0, s =>
    if cm = CMD_PING then (sendFrame s CMD_PONG [], .handled, r0, l0)
    else if cm = CMD_PRINT then
      ({ s with printed := s.printed ++ [p] }, .handled, r0, l0)
    else if cm = CMD_REGISTER_CALL then
      ({ s with callbacks := s.callbacks ++ [decodeName p] }, .handled, r0, l0)
    else if cm = CMD_FIND_NATIVE then
      (sendFrame s CMD_RESPONSE (encode32 (get_handle s.natives p)),
        .handled, r0, l0)
    else if cm = CMD_INVOKE_NATIVE then
      (sendFrame s CMD_RESPONSE (invoke_native s.natives p), .handled, r0, l0)
    else if cm = CMD_RECONNECT then
      (disconnect { s with clientReconnecting := true } true, .handled, r0, l0)
    else if cm = CMD_START then
      let r := exec f (.start p) s
      (r.1, .handled, r0, l0)
    else
      if p = [] then (s, .unhandled, r0, l0)
      else (s, .unhandled, some p, p.length)
  | f + 1, .start p, s =>
    let s0 := { s with clientStarted := true }
    let ty := p.headD 0
    if ty = 0 then (s0, .handled, none, 0)
    else if ty = 1 then
      (if s0.serverReceivedInit then { s0 with rcon := s0.rcon ++ [rconGMX] }
       else s0, .handled, none, 0)
    else if ty = 2 then
      if s0.serverReceivedInit then
        let s1 := { s0 with clientReceivedInit := true }
        let payload := fill_call_buffer s1.callbacks nameGMI
        if payload = [] then (s1, .handled, none, 0)
        else
          let s2 := sendFrame s1 CMD_PUBLIC_CALL payload
          let r := exec f .drain s2
          if r.2.1 = cmd_status.unhandled ∧ r.2.2.1 ≠ none ∧ r.2.2.2 ≠ 0 then
            (r.1, .handled, none, 0)
          else (logError r.1 errNoResponseInit, .handled, none, 0)
      else (s0, .handled, none, 0)
    else (logError s0 errInvalidStartMode, .handled, none, 0)

/-- Fuel cost bound of one engine call on a given state: enough fuel to
pop and fully process every entry of the inbox schedule. -/
def cost : Call → ServerState → Nat
  | .drain, s => 4 * s.inbox.length + 1
  | .receive_one _ _, s => 4 * s.inbox.length
  | .process _ _ _ _, s => 4 * s.inbox.length + 3
  | .start _, s => 4 * s.inbox.length + 2

/-- `server::cmd_receive_unhandled` at canonical fuel: repeatedly pull and
dispatch one command until the outcome is unhandled or the connection is
dead. -/
def cmd_receive_unhandled (s : ServerState) : DispatchResult :=
  exec (4 * s.inbox.length + 1 + 1) .drain s

/-- `server::cmd_receive_one` at canonical fuel: reconnect if needed, pull
one transport outcome, and dispatch it. -/
def cmd_receive_one (s : ServerState) (r0 : Option (List Nat)) (l0 : Nat) :
    DispatchResult :=
  exec (4 * s.inbox.length + 1) (.receive_one r0 l0) s

/-- `server::cmd_process` at canonical fuel: route one received
`(command, payload)` pair to its handler, or classify it as unhandled and
hand a copy of the payload to the caller. -/
def cmd_process (s : ServerState) (cm : Nat) (p : List Nat)
    (r0 : Option (List Nat)) (l0 : Nat) : DispatchResult :=
  exec (4 * s.inbox.length + 3 + 1) (.process cm p r0 l0) s

/-- The `cmd_start` handler at canonical fuel: mark the client started and
branch on the one-byte start mode. -/
def cmd_start (s : ServerState) (p : List Nat) : ServerState :=
  (exec (4 * s.inbox.length + 2 + 1) (.start p) s).1

/-- Reply-handling stage of `server::public_call` (the code after the
notification has been sent): drain for the reply; when no reply or a
zero-length reply arrives, log an error and leave the return-value slot
untouched; otherwise write bytes 1-4 into the slot when the reply has at
least 5 bytes, its first byte is non-zero and the slot exists. -/
def public_call_finish (s : ServerState) (retval : Option Nat) :
    ServerState × Option Nat :=
  let r := cmd_receive_unhandled s
  if r.2.1 ≠ cmd_status.unhandled ∨ r.2.2.1 = none ∨ r.2.2.2 = 0 then
    (logError r.1 errNoResponse, retval)
  else
    let bs := r.2.2.1.getD []
    if 5 ≤ r.2.2.2 ∧ bs.headD 0 ≠ 0 ∧ retval.isSome then
      (r.1, some (le32 bs))
    else (r.1, retval)

/-- Entry stage of `server::public_call`: toggle `server_received_init` on
the game-mode-init and game-mode-exit events, before any connectivity
check. -/
def public_call_toggle (s : ServerState) (name : String) : ServerState :=
  if name = nameGMI then { s with serverReceivedInit := true }
  else if name = nameGME then { s with serverReceivedInit := false }
  else s

/-- `server::public_call`: toggle `server_received_init` on the init and
exit events before any connectivity check; bail out when the client is not
connected or not started; set `client_received_init` for the init event and
suppress any other event that precedes it; serialise the event, skip empty
serialisations, send the notification and drain for the reply. -/
def public_call (s : ServerState) (name : String) (retval : Option Nat) :
    ServerState × Option Nat :=
  let s0 := public_call_toggle s name
  if !(is_client_connected s0 && s0.clientStarted) then (s0, retval)
  else
    if name ≠ nameGMI ∧ s0.clientReceivedInit = false then (s0, retval)
    else
      let s1 :=
        if name = nameGMI then { s0 with clientReceivedInit := true } else s0
      let payload := fill_call_buffer s1.callbacks name
      if payload = [] then (s1, retval)
      else public_call_finish (sendFrame s1 CMD_PUBLIC_CALL payload) retval

/-- The non-blocking receive loop of `server::tick`: pull and dispatch one
command at a time until nothing is pending or the connection dies, logging
and releasing any reply that surfaces with nobody waiting.  The response
out-parameter is threaded between iterations exactly as in the source,
where it is initialised once before the loop. -/
def tick_loop : Nat → ServerState → Option (List Nat) → Nat → ServerState
  | 0, s, _, _ => s
  | f + 1, s, r0, l0 =>
    let r := cmd_receive_one s r0 l0
    let s1 :=
      if r.2.2.1.isSome then logError r.1 errUnhandledInTick else r.1
    if r.2.1 = cmd_status.no_cmd ∨ r.2.1 = cmd_status.conn_dead then s1
    else tick_loop f s1 r.2.2.1 r.2.2.2

/-- `server::tick`: send the heartbeat notification when the client is
connected and both `client_started` and `client_received_init` are set,
then drain pending inbound commands non-blockingly. -/
def tick (s : ServerState) : ServerState :=
  let s1 :=
    if is_client_connected s && s.clientStarted && s.clientReceivedInit then
      sendFrame s CMD_TICK []
    else s
  tick_loop (s1.inbox.length + 1) s1 none 0

/-- The operations of the server visible to its host and client, used to
define reachability of states. -/
inductive Op
  | connect
  | disconnect (expected : Bool)
  | cmd_start (payload : List Nat)
  | cmd_reconnect
  | public_call (name : String)
  | tick
deriving DecidableEq, Repr

/-- One operation applied to the server state.  `cmd_reconnect` is the
`CMD_RECONNECT` handler: mark `client_reconnecting` and perform an
expected disconnect. -/
def step (s : ServerState) : Op → ServerState
  | .connect => (connect s).1
  | .disconnect e => disconnect s e
  | .cmd_start p => cmd_start s p
  | .cmd_reconnect => disconnect { s with clientReconnecting := true } true
  | .public_call n => (public_call s n none).1
  | .tick => tick s

/-- Run a sequence of operations from a state. -/
def run (s : ServerState) (ops : List Op) : ServerState :=
  ops.foldl step s

/-- The initial server state: no status flag set, transport down, empty
registries and empty traces, with a given receive schedule and transport
oracle. -/
def initState (inbox : List RecvRes) (env : List Bool) : ServerState :=
  { inbox := inbox, env := env }

/-- The command identifiers that `cmd_process` routes to a handler.  Note
that `CMD_RESPONSE` is deliberately absent: the dispatcher leaves it
unhandled so that it can carry an application-level reply to a waiting
drain. -/
def handledSet : List Nat :=
  [CMD_PING, CMD_PRINT, CMD_RECONNECT, CMD_REGISTER_CALL, CMD_FIND_NATIVE,
    CMD_INVOKE_NATIVE, CMD_START]

/-- The request set named by the specification, which includes the
response/reply identifier `0x03`. -/
def specRequestSet : List Nat :=
  [CMD_PING, CMD_PRINT, CMD_RESPONSE, CMD_RECONNECT, CMD_REGISTER_CALL,
    CMD_FIND_NATIVE, CMD_INVOKE_NATIVE, CMD_START]

/-- The status invariant of claim C1: `client_received_init` is only set
while `client_started` is set. -/
def QInv (s : ServerState) : Prop :=
  s.clientReceivedInit = true → s.clientStarted = true

/-- A receive schedule that carries no `start` command. -/
def noStart (ib : List RecvRes) : Prop :=
  ∀ cm p, RecvRes.frame cm p ∈ ib → cm ≠ CMD_START

/-- Number of public-call notification frames in a send trace. -/
def pcCount (l : List Frame) : Nat :=
  l.countP (fun fr => fr.cmd == CMD_PUBLIC_CALL)

/-- Engine calls that are not themselves the start handler (and do not
dispatch a start command directly); used to reason about drains whose
schedules carry no start command. -/
def callNoStart : Call → Prop
  | .start _ => False
  | .process cm _ _ _ => cm ≠ CMD_START
  | _ => True

/-! ### Unfolding equations for the receive engine -/

lemma exec_zero (c : Call) (s : ServerState) :
    exec 0 c s = (s, .conn_dead, none, 0) := rfl

lemma exec_drain_unfold (f : Nat) (s : ServerState) :
    exec (f + 1) .drain s =
      (let r := exec f (.receive_one none 0) s
       match r.2.1 with
       | .handled => exec f .drain r.1
       | .no_cmd => exec f .drain r.1
       | _ => r) := rfl

lemma exec_drain_continue (f : Nat) (s s' : ServerState) (st : cmd_status)
    (r : Option (List Nat)) (l : Nat)
    (h : exec f (.receive_one none 0) s = (s', st, r, l))
    (hst : st = cmd_status.handled ∨ st = cmd_status.no_cmd) :
    exec (f + 1) .drain s = exec f .drain s' := by
  rw [exec_drain_unfold, h]
  rcases hst with h2 | h2 <;> subst h2 <;> rfl

lemma exec_drain_stop (f : Nat) (s s' : ServerState) (st : cmd_status)
    (r : Option (List Nat)) (l : Nat)
    (h : exec f (.receive_one none 0) s = (s', st, r, l))
    (hst : st = cmd_status.unhandled ∨ st = cmd_status.conn_dead) :
    exec (f + 1) .drain s = (s', st, r, l) := by
  rw [exec_drain_unfold, h]
  rcases hst with h2 | h2 <;> subst h2 <;> rfl

lemma exec_rcv_unfold (f : Nat) (r0 : Option (List Nat)) (l0 : Nat)
    (s : ServerState) :
    exec (f + 1) (.receive_one r0 l0) s =
      (if !(connect s).2 then ((connect s).1, .conn_dead, r0, l0)
       else
         match (connect s).1.inbox with
         | [] => ((connect s).1, .conn_dead, r0, l0)
         | e :: rest =>
           match e with
           | .no_cmd =>
             ({ (connect s).1 with inbox := rest }, .no_cmd, r0, l0)
           | .conn_dead =>
             ({ (connect s).1 with inbox := rest }, .conn_dead, r0, l0)
           | .frame cm p =>
             exec f (.process cm p r0 l0)
               { (connect s).1 with inbox := rest }) := rfl

lemma exec_process_unfold (f : Nat) (cm : Nat) (p : List Nat)
    (r0 : Option (List Nat)) (l0 : Nat) (s : ServerState) :
    exec (f + 1) (.process cm p r0 l0) s =
      (if cm = CMD_PING then (sendFrame s CMD_PONG [], .handled, r0, l0)
       else if cm = CMD_PRINT then
         ({ s with printed := s.printed ++ [p] }, .handled, r0, l0)
       else if cm = CMD_REGISTER_CALL then
         ({ s with callbacks := s.callbacks ++ [decodeName p] }, .handled,
           r0, l0)
       else if cm = CMD_FIND_NATIVE then
         (sendFrame s CMD_RESPONSE (encode32 (get_handle s.natives p)),
           .handled, r0, l0)
       else if cm = CMD_INVOKE_NATIVE then
         (sendFrame s CMD_RESPONSE (invoke_native s.natives p), .handled,
           r0, l0)
       else if cm = CMD_RECONNECT then
         (disconnect { s with clientReconnecting := true } true, .handled,
           r0, l0)
       else if cm = CMD_START then
         ((exec f (.start p) s).1, .handled, r0, l0)
       else
         if p = [] then (s, .unhandled, r0, l0)
         else (s, .unhandled, some p, p.length)) := rfl

lemma exec_process_unhandled (f : Nat) (cm : Nat) (p : List Nat)
    (r0 : Option (List Nat)) (l0 : Nat) (s : ServerState)
    (hcm : cm ∉ handledSet) :
    exec (f + 1) (.process cm p r0 l0) s =
      (s, .unhandled, if p = [] then r0 else some p,
        if p = [] then l0 else p.length) := by
  simp only [handledSet, List.mem_cons, List.not_mem_nil, or_false,
    not_or] at hcm
  obtain ⟨h1, h2, h4, h5, h6, h7, h8⟩ := hcm
  rw [exec_process_unfold]
  simp only [if_neg h1, if_neg h2, if_neg h4, if_neg h5, if_neg h6,
    if_neg h7, if_neg h8]
  split <;> rename_i hp <;> simp [hp]

lemma exec_start_unfold (f : Nat) (p : List Nat) (s : ServerState) :
    exec (f + 1) (.start p) s =
      (if p.headD 0 = 0 then
         ({ s with clientStarted := true }, .handled, none, 0)
       else if p.headD 0 = 1 then
         (if s.serverReceivedInit then
            { s with clientStarted := true, rcon := s.rcon ++ [rconGMX] }
          else { s with clientStarted := true }, .handled, none, 0)
       else if p.headD 0 = 2 then
         if s.serverReceivedInit then
           if fill_call_buffer s.callbacks nameGMI = [] then
             ({ s with clientStarted := true, clientReceivedInit := true },
               .handled, none, 0)
           else
             if (exec f .drain (sendFrame
                   { s with clientStarted := true, clientReceivedInit := true }
                   CMD_PUBLIC_CALL
                   (fill_call_buffer s.callbacks nameGMI))).2.1 =
                 cmd_status.unhandled ∧
                 (exec f .drain (sendFrame
                   { s with clientStarted := true, clientReceivedInit := true }
                   CMD_PUBLIC_CALL
                   (fill_call_buffer s.callbacks nameGMI))).2.2.1 ≠ none ∧
                 (exec f .drain (sendFrame
                   { s with clientStarted := true, clientReceivedInit := true }
                   CMD_PUBLIC_CALL
                   (fill_call_buffer s.callbacks nameGMI))).2.2.2 ≠ 0 then
               ((exec f .drain (sendFrame
                   { s with clientStarted := true, clientReceivedInit := true }
                   CMD_PUBLIC_CALL
                   (fill_call_buffer s.callbacks nameGMI))).1,
                 .handled, none, 0)
             else
               (logError (exec f .drain (sendFrame
                   { s with clientStarted := true, clientReceivedInit := true }
                   CMD_PUBLIC_CALL
                   (fill_call_buffer s.callbacks nameGMI))).1
                 errNoResponseInit, .handled, none, 0)
         else ({ s with clientStarted := true }, .handled, none, 0)
       else
         (logError { s with clientStarted := true } errInvalidStartMode,
           .handled, none, 0)) := rfl

/-! ### Field lemmas for the straight-line operations -/

lemma connect_of_tconnected (s : ServerState) (h : s.tconnected = true) :
    connect s = (s, true) := by
  unfold connect
  simp [h]

lemma connect_clientStarted (s : ServerState) :
    (connect s).1.clientStarted = s.clientStarted := by
  unfold connect cmd_send_announce sendFrame popEnv
  cases h1 : s.tconnected <;> cases h2 : s.tready <;>
    cases h3 : s.env.head?.getD false <;> cases h5 : s.env[1]?.getD false <;>
    cases h4 : s.clientReconnecting <;> simp [h1, h2, h3, h4, h5]

lemma connect_clientReceivedInit (s : ServerState) :
    (connect s).1.clientReceivedInit = s.clientReceivedInit := by
  unfold connect cmd_send_announce sendFrame popEnv
  cases h1 : s.tconnected <;> cases h2 : s.tready <;>
    cases h3 : s.env.head?.getD false <;> cases h5 : s.env[1]?.getD false <;>
    cases h4 : s.clientReconnecting <;> simp [h1, h2, h3, h4, h5]

lemma connect_inbox (s : ServerState) :
    (connect s).1.inbox = s.inbox := by
  unfold connect cmd_send_announce sendFrame popEnv
  cases h1 : s.tconnected <;> cases h2 : s.tready <;>
    cases h3 : s.env.head?.getD false <;> cases h5 : s.env[1]?.getD false <;>
    cases h4 : s.clientReconnecting <;> simp [h1, h2, h3, h4, h5]

lemma connect_sent (s : ServerState) :
    ∃ l, (connect s).1.sent = s.sent ++ l ∧
      ∀ fr ∈ l, fr.cmd = CMD_ANNOUNCE := by
  unfold connect cmd_send_announce sendFrame popEnv
  cases h1 : s.tconnected <;> cases h2 : s.tready <;>
    cases h3 : s.env.head?.getD false <;> cases h5 : s.env[1]?.getD false <;>
    cases h4 : s.clientReconnecting <;>
    first
    | (refine ⟨[], ?_, ?_⟩ <;> (simp [h1, h2, h3, h4, h5]; done))
    | (refine ⟨[⟨CMD_ANNOUNCE,
          encode32 PLUGIN_PROTOCOL_VERSION ++ encode32 PLUGIN_VERSION⟩],
          ?_, ?_⟩ <;> (simp [h1, h2, h3, h4, h5]; done))

lemma disconnect_clientReceivedInit (s : ServerState) (e : Bool) :
    (disconnect s e).clientReceivedInit = s.clientReceivedInit := by
  unfold disconnect popEnv
  split_ifs <;> simp_all

lemma disconnect_inbox (s : ServerState) (e : Bool) :
    (disconnect s e).inbox = s.inbox := by
  unfold disconnect popEnv
  split_ifs <;> simp_all

lemma disconnect_sent (s : ServerState) (e : Bool) :
    (disconnect s e).sent = s.sent := by
  unfold disconnect popEnv
  split_ifs <;> simp_all

lemma disconnect_true_clientStarted (s : ServerState) :
    (disconnect s true).clientStarted = s.clientStarted := by
  unfold disconnect popEnv
  split_ifs <;> simp_all

lemma sent_step {a b c : ServerState} {l1 l2 : List Frame}
    (h1 : b.sent = a.sent ++ l1) (h2 : c.sent = b.sent ++ l2) :
    c.sent = a.sent ++ (l1 ++ l2) := by
  rw [h2, h1, List.append_assoc]


/-! ### Preservation of the status invariant -/

lemma connect_Q (s : ServerState) (h : QInv s) : QInv (connect s).1 := by
  unfold QInv at *
  rw [connect_clientStarted, connect_clientReceivedInit]
  exact h

lemma disconnect_true_Q (s : ServerState) (h : QInv s) :
    QInv (disconnect s true) := by
  unfold QInv at *
  rw [disconnect_true_clientStarted, disconnect_clientReceivedInit]
  exact h

lemma exec_Q :
    ∀ (f : Nat) (c : Call) (s : ServerState), QInv s → QInv (exec f c s).1 := by
  intro f
  induction f with
  | zero => intro c s h; simpa [exec_zero] using h
  | succ f ih =>
    intro c s h
    cases c with
    | drain =>
      rcases hr : exec f (Call.receive_one none 0) s with ⟨s', st, r, l⟩
      have h' : QInv s' := by
        have hh := ih (Call.receive_one none 0) s h
        rw [hr] at hh
        exact hh
      cases st with
      | handled =>
        rw [exec_drain_continue f s s' _ r l hr (Or.inl rfl)]
        exact ih Call.drain s' h'
      | no_cmd =>
        rw [exec_drain_continue f s s' _ r l hr (Or.inr rfl)]
        exact ih Call.drain s' h'
      | unhandled =>
        rw [exec_drain_stop f s s' _ r l hr (Or.inl rfl)]
        exact h'
      | conn_dead =>
        rw [exec_drain_stop f s s' _ r l hr (Or.inr rfl)]
        exact h'
    | receive_one r0 l0 =>
      rw [exec_rcv_unfold]
      have hc : QInv (connect s).1 := connect_Q s h
      cases hok : (connect s).2
      · simp only [hok, Bool.not_false, if_true]
        exact hc
      · simp only [hok, Bool.not_true, Bool.false_eq_true, if_false]
        rcases hib : (connect s).1.inbox with _ | ⟨e, rest⟩
        · exact hc
        · cases e with
          | no_cmd => exact hc
          | conn_dead => exact hc
          | frame cm p => exact ih _ _ hc
    | process cm p r0 l0 =>
      rw [exec_process_unfold]
      split_ifs
      · exact h
      · exact h
      · exact h
      · exact h
      · exact h
      · exact disconnect_true_Q _ h
      · exact ih (Call.start p) s h
      · exact h
      · exact h
    | start p =>
      rw [exec_start_unfold]
      split_ifs <;>
        first
        | (intro _; rfl)
        | (exact ih Call.drain _ (fun _ => rfl))

/-! ### Send-trace lemmas -/

lemma sent_comp {a b c : ServerState} {l1 l2 : List Frame} {P : Frame → Prop}
    (h1 : b.sent = a.sent ++ l1) (g1 : ∀ fr ∈ l1, P fr)
    (h2 : c.sent = b.sent ++ l2) (g2 : ∀ fr ∈ l2, P fr) :
    ∃ l, c.sent = a.sent ++ l ∧ ∀ fr ∈ l, P fr := by
  refine ⟨l1 ++ l2, by rw [h2, h1, List.append_assoc], ?_⟩
  intro fr hfr
  rcases List.mem_append.mp hfr with hm | hm
  · exact g1 fr hm
  · exact g2 fr hm

lemma exec_sent :
    ∀ (f : Nat) (c : Call) (s : ServerState),
      ∃ l, (exec f c s).1.sent = s.sent ++ l ∧
        ∀ fr ∈ l, fr.cmd ≠ CMD_TICK := by
  intro f
  induction f with
  | zero => intro c s; exact ⟨[], by simp [exec_zero], by simp⟩
  | succ f ih =>
    intro c s
    cases c with
    | drain =>
      rcases hr : exec f (Call.receive_one none 0) s with ⟨s', st, r, l⟩
      obtain ⟨l1, hl1, ht1⟩ : ∃ l1, s'.sent = s.sent ++ l1 ∧
          ∀ fr ∈ l1, fr.cmd ≠ CMD_TICK := by
        have hh := ih (Call.receive_one none 0) s
        rwa [hr] at hh
      cases st with
      | handled =>
        rw [exec_drain_continue f s s' _ r l hr (Or.inl rfl)]
        obtain ⟨l2, hl2, ht2⟩ := ih Call.drain s'
        exact sent_comp hl1 ht1 hl2 ht2
      | no_cmd =>
        rw [exec_drain_continue f s s' _ r l hr (Or.inr rfl)]
        obtain ⟨l2, hl2, ht2⟩ := ih Call.drain s'
        exact sent_comp hl1 ht1 hl2 ht2
      | unhandled =>
        rw [exec_drain_stop f s s' _ r l hr (Or.inl rfl)]
        exact ⟨l1, hl1, ht1⟩
      | conn_dead =>
        rw [exec_drain_stop f s s' _ r l hr (Or.inr rfl)]
        exact ⟨l1, hl1, ht1⟩
    | receive_one r0 l0 =>
      rw [exec_rcv_unfold]
      obtain ⟨l1, hl1, ht1⟩ := connect_sent s
      have ht1' : ∀ fr ∈ l1, fr.cmd ≠ CMD_TICK := by
        intro fr hfr
        rw [ht1 fr hfr]
        decide
      cases hok : (connect s).2
      · simp only [hok, Bool.not_false, if_true]
        exact ⟨l1, hl1, ht1'⟩
      · simp only [hok, Bool.not_true, Bool.false_eq_true, if_false]
        rcases hib : (connect s).1.inbox with _ | ⟨e, rest⟩
        · exact ⟨l1, hl1, ht1'⟩
        · cases e with
          | no_cmd => exact ⟨l1, hl1, ht1'⟩
          | conn_dead => exact ⟨l1, hl1, ht1'⟩
          | frame cm p =>
            obtain ⟨l2, hl2, ht2⟩ :=
              ih (Call.process cm p r0 l0) { (connect s).1 with inbox := rest }
            exact sent_comp hl1 ht1' hl2 ht2
    | process cm p r0 l0 =>
      rw [exec_process_unfold]
      split_ifs
      · exact ⟨[⟨CMD_PONG, []⟩], rfl, by decide⟩
      · exact ⟨[], by simp, by simp⟩
      · exact ⟨[], by simp, by simp⟩
      · exact ⟨[⟨CMD_RESPONSE, encode32 (get_handle s.natives p)⟩], rfl,
          by simp [CMD_RESPONSE, CMD_TICK]⟩
      · exact ⟨[⟨CMD_RESPONSE, invoke_native s.natives p⟩], rfl,
          by simp [CMD_RESPONSE, CMD_TICK]⟩
      · exact ⟨[], by rw [disconnect_sent]; simp, by simp⟩
      · have hh := ih (Call.start p) s
        exact hh
      · exact ⟨[], by simp, by simp⟩
      · exact ⟨[], by simp, by simp⟩
    | start p =>
      rw [exec_start_unfold]
      split_ifs <;>
        first
        | (refine ⟨[], ?_, ?_⟩ <;> (simp [logError]; done))
        | (obtain ⟨l2, hl2, ht2⟩ := ih Call.drain (sendFrame
              { s with clientStarted := true, clientReceivedInit := true }
              CMD_PUBLIC_CALL (fill_call_buffer s.callbacks nameGMI))
           have h1 : (sendFrame
              { s with clientStarted := true, clientReceivedInit := true }
              CMD_PUBLIC_CALL (fill_call_buffer s.callbacks nameGMI)).sent =
              s.sent ++
                [⟨CMD_PUBLIC_CALL, fill_call_buffer s.callbacks nameGMI⟩] :=
             rfl
           exact sent_comp h1
             (by simp [CMD_PUBLIC_CALL, CMD_TICK]) hl2 ht2)

/-! ### Public-call counting lemmas -/

lemma pcCount_append (a l : List Frame)
    (h : ∀ fr ∈ l, fr.cmd ≠ CMD_PUBLIC_CALL) :
    pcCount (a ++ l) = pcCount a := by
  unfold pcCount
  rw [List.countP_append]
  have hz : l.countP (fun fr => fr.cmd == CMD_PUBLIC_CALL) = 0 := by
    rw [List.countP_eq_zero]
    intro fr hfr
    simp [h fr hfr]
  omega

lemma noStart_tail {e : RecvRes} {rest : List RecvRes}
    (h : noStart (e :: rest)) : noStart rest :=
  fun cm p hm => h cm p (List.mem_cons_of_mem _ hm)

lemma noStart_head {cm : Nat} {p : List Nat} {rest : List RecvRes}
    (h : noStart (.frame cm p :: rest)) : cm ≠ CMD_START :=
  h cm p (List.mem_cons_self _ _)

lemma exec_noPC :
    ∀ (f : Nat) (c : Call) (s : ServerState), callNoStart c →
      noStart s.inbox →
      pcCount (exec f c s).1.sent = pcCount s.sent ∧
        noStart (exec f c s).1.inbox := by
  intro f
  induction f with
  | zero => intro c s _ hns; exact ⟨by simp [exec_zero], by simpa [exec_zero] using hns⟩
  | succ f ih =>
    intro c s hcall hns
    cases c with
    | drain =>
      rcases hr : exec f (Call.receive_one none 0) s with ⟨s', st, r, l⟩
      obtain ⟨hp1, hn1⟩ : pcCount s'.sent = pcCount s.sent ∧ noStart s'.inbox := by
        have hh := ih (Call.receive_one none 0) s trivial hns
        rwa [hr] at hh
      cases st with
      | handled =>
        rw [exec_drain_continue f s s' _ r l hr (Or.inl rfl)]
        obtain ⟨hp2, hn2⟩ := ih Call.drain s' trivial hn1
        exact ⟨hp2.trans hp1, hn2⟩
      | no_cmd =>
        rw [exec_drain_continue f s s' _ r l hr (Or.inr rfl)]
        obtain ⟨hp2, hn2⟩ := ih Call.drain s' trivial hn1
        exact ⟨hp2.trans hp1, hn2⟩
      | unhandled =>
        rw [exec_drain_stop f s s' _ r l hr (Or.inl rfl)]
        exact ⟨hp1, hn1⟩
      | conn_dead =>
        rw [exec_drain_stop f s s' _ r l hr (Or.inr rfl)]
        exact ⟨hp1, hn1⟩
    | receive_one r0 l0 =>
      rw [exec_rcv_unfold]
      obtain ⟨l1, hl1, ht1⟩ := connect_sent s
      have hp1 : pcCount (connect s).1.sent = pcCount s.sent := by
        rw [hl1]
        exact pcCount_append _ _ (by intro fr hfr; rw [ht1 fr hfr]; decide)
      have hn1 : noStart (connect s).1.inbox := by
        rw [connect_inbox]; exact hns
      cases hok : (connect s).2
      · simp only [hok, Bool.not_false, if_true]
        exact ⟨hp1, hn1⟩
      · simp only [hok, Bool.not_true, Bool.false_eq_true, if_false]
        rcases hib : (connect s).1.inbox with _ | ⟨e, rest⟩
        · exact ⟨hp1, hn1⟩
        · rw [hib] at hn1
          cases e with
          | no_cmd => exact ⟨hp1, noStart_tail hn1⟩
          | conn_dead => exact ⟨hp1, noStart_tail hn1⟩
          | frame cm p =>
            obtain ⟨hp2, hn2⟩ :=
              ih (Call.process cm p r0 l0) { (connect s).1 with inbox := rest }
                (noStart_head hn1) (noStart_tail hn1)
            exact ⟨hp2.trans hp1, hn2⟩
    | process cm p r0 l0 =>
      have hcm : cm ≠ CMD_START := hcall
      rw [exec_process_unfold]
      split_ifs
      · exact ⟨pcCount_append _ _ (by decide), hns⟩
      · exact ⟨rfl, hns⟩
      · exact ⟨rfl, hns⟩
      · exact ⟨pcCount_append _ _ (by intro fr hfr; simp_all [CMD_RESPONSE, CMD_PUBLIC_CALL]), hns⟩
      · exact ⟨pcCount_append _ _ (by intro fr hfr; simp_all [CMD_RESPONSE, CMD_PUBLIC_CALL]), hns⟩
      · refine ⟨by rw [disconnect_sent], ?_⟩
        have hib := disconnect_inbox { s with clientReconnecting := true } true
        intro a b hm
        rw [hib] at hm
        exact hns a b hm
      · exact ⟨rfl, hns⟩
      · exact ⟨rfl, hns⟩
    | start p => exact absurd hcall (by simp [callNoStart])

/-! ### Inbox progress lemmas -/

lemma exec_inbox_le :
    ∀ (f : Nat) (c : Call) (s : ServerState),
      (exec f c s).1.inbox.length ≤ s.inbox.length := by
  intro f
  induction f with
  | zero => intro c s; simp [exec_zero]
  | succ f ih =>
    intro c s
    cases c with
    | drain =>
      rcases hr : exec f (Call.receive_one none 0) s with ⟨s', st, r, l⟩
      have h1 : s'.inbox.length ≤ s.inbox.length := by
        have hh := ih (Call.receive_one none 0) s
        rw [hr] at hh
        exact hh
      cases st with
      | handled =>
        rw [exec_drain_continue f s s' _ r l hr (Or.inl rfl)]
        exact le_trans (ih Call.drain s') h1
      | no_cmd =>
        rw [exec_drain_continue f s s' _ r l hr (Or.inr rfl)]
        exact le_trans (ih Call.drain s') h1
      | unhandled =>
        rw [exec_drain_stop f s s' _ r l hr (Or.inl rfl)]
        exact h1
      | conn_dead =>
        rw [exec_drain_stop f s s' _ r l hr (Or.inr rfl)]
        exact h1
    | receive_one r0 l0 =>
      rw [exec_rcv_unfold]
      have hci : (connect s).1.inbox = s.inbox := connect_inbox s
      cases hok : (connect s).2
      · simp only [hok, Bool.not_false, if_true]
        rw [hci]
      · simp only [hok, Bool.not_true, Bool.false_eq_true, if_false]
        rcases hib : (connect s).1.inbox with _ | ⟨e, rest⟩
        · rw [hci]
        · have hlen : s.inbox.length = rest.length + 1 := by
            rw [← hci, hib]
            simp
          cases e with
          | no_cmd => dsimp only; simp [hlen]
          | conn_dead => dsimp only; simp [hlen]
          | frame cm p =>
            dsimp only
            have hh := ih (Call.process cm p r0 l0)
              { (connect s).1 with inbox := rest }
            simp only at hh
            omega
    | process cm p r0 l0 =>
      rw [exec_process_unfold]
      split_ifs
      · simp [sendFrame]
      · simp
      · simp
      · simp [sendFrame]
      · simp [sendFrame]
      · rw [disconnect_inbox]
      · exact ih (Call.start p) s
      · simp
      · simp
    | start p =>
      rw [exec_start_unfold]
      split_ifs <;>
        first
        | (simp [logError]; done)
        | (exact le_trans (ih Call.drain _) (le_of_eq (by simp [sendFrame])))

lemma exec_rcv_pop (f : Nat) (r0 : Option (List Nat)) (l0 : Nat)
    (s s2 : ServerState) (st : cmd_status) (r : Option (List Nat)) (l : Nat)
    (he : exec f (.receive_one r0 l0) s = (s2, st, r, l))
    (hst : st ≠ cmd_status.conn_dead) :
    s2.inbox.length < s.inbox.length := by
  cases f with
  | zero =>
    rw [exec_zero] at he
    cases he
    exact absurd rfl hst
  | succ f =>
    rw [exec_rcv_unfold] at he
    have hci : (connect s).1.inbox = s.inbox := connect_inbox s
    rcases hcon : connect s with ⟨s1, ok⟩
    rw [hcon] at he hci
    dsimp only at he hci
    cases ok with
    | false =>
      simp only [Bool.not_false, if_true] at he
      cases he
      exact absurd rfl hst
    | true =>
      simp only [Bool.not_true, Bool.false_eq_true, if_false] at he
      rcases hib : s1.inbox with _ | ⟨e, rest⟩
      · rw [hib] at he
        dsimp only at he
        cases he
        exact absurd rfl hst
      · have hlen : s.inbox.length = rest.length + 1 := by
          rw [← hci, hib]
          simp
        rw [hib] at he
        cases e with
        | no_cmd =>
          dsimp only at he
          have h2 : s2 = { s1 with inbox := rest } := by
            have h3 := congrArg Prod.fst he
            simpa using h3.symm
          rw [h2]
          have hr2 : ({ s1 with inbox := rest } : ServerState).inbox = rest :=
            rfl
          rw [hr2]
          omega
        | conn_dead =>
          dsimp only at he
          cases he
          exact absurd rfl hst
        | frame cm p =>
          dsimp only at he
          have hh := exec_inbox_le f (Call.process cm p r0 l0)
            { s1 with inbox := rest }
          rw [he] at hh
          simp only at hh
          omega

/-! ### Fuel canonicalisation -/

lemma exec_fuel :
    ∀ (f : Nat) (c : Call) (s : ServerState), cost c s < f →
      exec f c s = exec (cost c s + 1) c s := by
  intro f
  induction f using Nat.strong_induction_on with
  | _ f ih =>
    intro c s hf
    obtain ⟨g, rfl⟩ : ∃ g, f = g + 1 := ⟨f - 1, by omega⟩
    cases c with
    | drain =>
      have hcost : cost Call.drain s = 4 * s.inbox.length + 1 := rfl
      have hcr : cost (Call.receive_one (none : Option (List Nat)) 0) s =
          4 * s.inbox.length := rfl
      rw [hcost] at hf ⊢
      have h1 : exec g (.receive_one none 0) s =
          exec (4 * s.inbox.length + 1) (.receive_one none 0) s := by
        have h := ih g (by omega) (Call.receive_one none 0) s
          (by rw [hcr]; omega)
        rwa [hcr] at h
      rcases hr : exec (4 * s.inbox.length + 1) (Call.receive_one none 0) s
        with ⟨s', st, r, l⟩
      have hrg : exec g (Call.receive_one none 0) s = (s', st, r, l) :=
        h1.trans hr
      have hc' : cost Call.drain s' = 4 * s'.inbox.length + 1 := rfl
      cases st with
      | handled =>
        rw [exec_drain_continue g s s' _ r l hrg (Or.inl rfl),
          exec_drain_continue (4 * s.inbox.length + 1) s s' _ r l hr
            (Or.inl rfl)]
        have hpop : s'.inbox.length < s.inbox.length :=
          exec_rcv_pop _ _ _ _ _ _ _ _ hr (by decide)
        have e1 := ih g (by omega) Call.drain s' (by rw [hc']; omega)
        have e2 := ih (4 * s.inbox.length + 1) (by omega) Call.drain s'
          (by rw [hc']; omega)
        rw [hc'] at e1 e2
        rw [e1, e2]
      | no_cmd =>
        rw [exec_drain_continue g s s' _ r l hrg (Or.inr rfl),
          exec_drain_continue (4 * s.inbox.length + 1) s s' _ r l hr
            (Or.inr rfl)]
        have hpop : s'.inbox.length < s.inbox.length :=
          exec_rcv_pop _ _ _ _ _ _ _ _ hr (by decide)
        have e1 := ih g (by omega) Call.drain s' (by rw [hc']; omega)
        have e2 := ih (4 * s.inbox.length + 1) (by omega) Call.drain s'
          (by rw [hc']; omega)
        rw [hc'] at e1 e2
        rw [e1, e2]
      | unhandled =>
        rw [exec_drain_stop g s s' _ r l hrg (Or.inl rfl),
          exec_drain_stop (4 * s.inbox.length + 1) s s' _ r l hr (Or.inl rfl)]
      | conn_dead =>
        rw [exec_drain_stop g s s' _ r l hrg (Or.inr rfl),
          exec_drain_stop (4 * s.inbox.length + 1) s s' _ r l hr (Or.inr rfl)]
    | receive_one r0 l0 =>
      have hcost : cost (Call.receive_one r0 l0) s = 4 * s.inbox.length := rfl
      rw [hcost] at hf ⊢
      rw [exec_rcv_unfold, exec_rcv_unfold]
      have hci : (connect s).1.inbox = s.inbox := connect_inbox s
      cases hok : (connect s).2
      · rfl
      · simp only [Bool.not_true, Bool.false_eq_true, if_false]
        rcases hib : (connect s).1.inbox with _ | ⟨e, rest⟩
        · rfl
        · have hlen : s.inbox.length = rest.length + 1 := by
            rw [← hci, hib]
            simp
          cases e with
          | no_cmd => rfl
          | conn_dead => rfl
          | frame cm p =>
            dsimp only
            have hc' : cost (Call.process cm p r0 l0)
                { (connect s).1 with inbox := rest } =
                4 * rest.length + 3 := rfl
            have e1 := ih g (by omega) (Call.process cm p r0 l0)
              { (connect s).1 with inbox := rest } (by rw [hc']; omega)
            have e2 := ih (4 * s.inbox.length) (by omega)
              (Call.process cm p r0 l0)
              { (connect s).1 with inbox := rest } (by rw [hc']; omega)
            rw [hc'] at e1 e2
            rw [e1, e2]
    | process cm p r0 l0 =>
      have hcost : cost (Call.process cm p r0 l0) s =
          4 * s.inbox.length + 3 := rfl
      rw [hcost] at hf ⊢
      rw [exec_process_unfold, exec_process_unfold]
      have hc' : cost (Call.start p) s = 4 * s.inbox.length + 2 := rfl
      have e1 := ih g (by omega) (Call.start p) s (by rw [hc']; omega)
      have e2 := ih (4 * s.inbox.length + 3) (by omega) (Call.start p) s
        (by rw [hc']; omega)
      rw [hc'] at e1 e2
      rw [e1, e2]
    | start p =>
      have hcost : cost (Call.start p) s = 4 * s.inbox.length + 2 := rfl
      rw [hcost] at hf ⊢
      rw [exec_start_unfold, exec_start_unfold]
      have hc' : cost Call.drain (sendFrame
          { s with clientStarted := true, clientReceivedInit := true }
          CMD_PUBLIC_CALL (fill_call_buffer s.callbacks nameGMI)) =
          4 * s.inbox.length + 1 := rfl
      have e1 := ih g (by omega) Call.drain (sendFrame
          { s with clientStarted := true, clientReceivedInit := true }
          CMD_PUBLIC_CALL (fill_call_buffer s.callbacks nameGMI))
        (by rw [hc']; omega)
      have e2 := ih (4 * s.inbox.length + 2) (by omega) Call.drain (sendFrame
          { s with clientStarted := true, clientReceivedInit := true }
          CMD_PUBLIC_CALL (fill_call_buffer s.callbacks nameGMI))
        (by rw [hc']; omega)
      rw [hc'] at e1 e2
      rw [e1, e2]

/-! ### Single-step behaviour of the drain loop -/

lemma exec_drain_canonical (f : Nat) (s : ServerState)
    (h : 4 * s.inbox.length + 1 < f) :
    exec f .drain s = cmd_receive_unhandled s := by
  unfold cmd_receive_unhandled
  have hc : cost Call.drain s = 4 * s.inbox.length + 1 := rfl
  have he := exec_fuel f Call.drain s (by rw [hc]; omega)
  rw [hc] at he
  exact he

lemma cru_no_cmd (s : ServerState) (rest : List RecvRes)
    (ht : s.tconnected = true) (hib : s.inbox = RecvRes.no_cmd :: rest) :
    cmd_receive_unhandled s = cmd_receive_unhandled { s with inbox := rest } := by
  have hcon := connect_of_tconnected s ht
  have h1 : exec (4 * s.inbox.length + 1) (.receive_one (none : Option (List Nat)) 0) s =
      ({ s with inbox := rest }, .no_cmd, none, 0) := by
    rw [exec_rcv_unfold, hcon]
    dsimp only
    rw [hib]
    rfl
  have h2 := exec_drain_continue (4 * s.inbox.length + 1) s _ _ _ _ h1
    (Or.inr rfl)
  unfold cmd_receive_unhandled
  rw [h2]
  exact exec_drain_canonical _ _ (by simp [hib])

lemma cru_dead_entry (s : ServerState) (rest : List RecvRes)
    (ht : s.tconnected = true) (hib : s.inbox = RecvRes.conn_dead :: rest) :
    cmd_receive_unhandled s = ({ s with inbox := rest }, .conn_dead, none, 0) := by
  have hcon := connect_of_tconnected s ht
  have h1 : exec (4 * s.inbox.length + 1) (.receive_one (none : Option (List Nat)) 0) s =
      ({ s with inbox := rest }, .conn_dead, none, 0) := by
    rw [exec_rcv_unfold, hcon]
    dsimp only
    rw [hib]
    rfl
  unfold cmd_receive_unhandled
  exact exec_drain_stop (4 * s.inbox.length + 1) s _ _ _ _ h1 (Or.inr rfl)

lemma cru_ping (s : ServerState) (rest : List RecvRes) (p : List Nat)
    (ht : s.tconnected = true) (hib : s.inbox = RecvRes.frame CMD_PING p :: rest) :
    cmd_receive_unhandled s = cmd_receive_unhandled
      { s with inbox := rest, sent := s.sent ++ [⟨CMD_PONG, []⟩] } := by
  have hcon := connect_of_tconnected s ht
  have hfe : 4 * s.inbox.length = 4 * rest.length + 3 + 1 := by
    rw [hib]
    simp
    ring
  have h1 : exec (4 * s.inbox.length + 1) (.receive_one (none : Option (List Nat)) 0) s =
      ({ s with inbox := rest, sent := s.sent ++ [⟨CMD_PONG, []⟩] },
        .handled, none, 0) := by
    rw [exec_rcv_unfold, hcon]
    dsimp only
    rw [hfe, hib]
    dsimp only
    rw [exec_process_unfold]
    simp [CMD_PING, sendFrame]
  have h2 := exec_drain_continue (4 * s.inbox.length + 1) s _ _ _ _ h1
    (Or.inl rfl)
  unfold cmd_receive_unhandled
  rw [h2]
  exact exec_drain_canonical _ _ (by simp [hib])

lemma cru_unhandled (s : ServerState) (rest : List RecvRes) (cm : Nat)
    (p : List Nat) (ht : s.tconnected = true) (hcm : cm ∉ handledSet)
    (hp : p ≠ []) (hib : s.inbox = RecvRes.frame cm p :: rest) :
    cmd_receive_unhandled s =
      ({ s with inbox := rest }, .unhandled, some p, p.length) := by
  have hcon := connect_of_tconnected s ht
  have hfe : 4 * s.inbox.length = 4 * rest.length + 3 + 1 := by
    rw [hib]
    simp
    ring
  have h1 : exec (4 * s.inbox.length + 1) (.receive_one (none : Option (List Nat)) 0) s =
      ({ s with inbox := rest }, .unhandled, some p, p.length) := by
    rw [exec_rcv_unfold, hcon]
    dsimp only
    rw [hfe, hib]
    dsimp only
    rw [exec_process_unhandled _ _ _ _ _ _ hcm]
    simp [hp]
  unfold cmd_receive_unhandled
  exact exec_drain_stop (4 * s.inbox.length + 1) s _ _ _ _ h1 (Or.inl rfl)

/-! ### Helper lemmas for public_call and tick -/

lemma public_call_routes_gmi (s : ServerState) (rv : Option Nat)
    (hconn : is_client_connected s = true) (hst : s.clientStarted = true)
    (hfill : fill_call_buffer s.callbacks nameGMI ≠ []) :
    public_call s nameGMI rv = public_call_finish
      (sendFrame
        { s with serverReceivedInit := true, clientReceivedInit := true }
        CMD_PUBLIC_CALL (fill_call_buffer s.callbacks nameGMI)) rv := by
  have htc : s.tconnected = true ∧ s.clientConnected = true := by
    simpa [is_client_connected, Bool.and_eq_true] using hconn
  unfold public_call public_call_toggle
  simp [is_client_connected, htc.1, htc.2, hst, hfill]

lemma public_call_finish_Q (s : ServerState) (rv : Option Nat)
    (h : QInv s) : QInv (public_call_finish s rv).1 := by
  unfold public_call_finish cmd_receive_unhandled
  rcases hr : exec (4 * s.inbox.length + 1 + 1) Call.drain s
    with ⟨s2, st, r, l⟩
  have h2 : QInv s2 := by
    have hh := exec_Q (4 * s.inbox.length + 1 + 1) Call.drain s h
    rw [hr] at hh
    exact hh
  dsimp only
  split_ifs <;> exact h2

lemma public_call_Q (s : ServerState) (name : String) (rv : Option Nat)
    (h : QInv s) : QInv (public_call s name rv).1 := by
  have hQ0 : QInv (public_call_toggle s name) := by
    unfold public_call_toggle
    split_ifs <;> exact h
  unfold public_call
  dsimp only
  split_ifs with hg hsup hn hfill hfill2
  · exact hQ0
  · exact hQ0
  · intro _
    have hst : (public_call_toggle s name).clientStarted = true := by
      by_contra hc
      apply hg
      simp only [Bool.not_eq_true] at hc
      simp [hc]
    exact hst
  · refine public_call_finish_Q _ _ ?_
    intro _
    have hst : (public_call_toggle s name).clientStarted = true := by
      by_contra hc
      apply hg
      simp only [Bool.not_eq_true] at hc
      simp [hc]
    exact hst
  · exact hQ0
  · exact public_call_finish_Q _ _ hQ0

lemma cmd_receive_one_Q (s : ServerState) (r0 : Option (List Nat)) (l0 : Nat)
    (h : QInv s) : QInv (cmd_receive_one s r0 l0).1 := by
  unfold cmd_receive_one
  exact exec_Q _ _ _ h

lemma tick_loop_Q :
    ∀ (f : Nat) (s : ServerState) (r0 : Option (List Nat)) (l0 : Nat),
      QInv s → QInv (tick_loop f s r0 l0) := by
  intro f
  induction f with
  | zero => intro s r0 l0 h; exact h
  | succ f ih =>
    intro s r0 l0 h
    rw [tick_loop]
    rcases hr : cmd_receive_one s r0 l0 with ⟨s1, st, r, l⟩
    have h1 : QInv s1 := by
      have hh := cmd_receive_one_Q s r0 l0 h
      rw [hr] at hh
      exact hh
    dsimp only
    split_ifs
    · exact h1
    · exact h1
    · exact ih _ _ _ h1
    · exact ih _ _ _ h1

lemma tick_Q (s : ServerState) (h : QInv s) : QInv (tick s) := by
  unfold tick
  split_ifs <;> exact tick_loop_Q _ _ _ _ h

lemma tick_loop_sent :
    ∀ (f : Nat) (s : ServerState) (r0 : Option (List Nat)) (l0 : Nat),
      ∃ l, (tick_loop f s r0 l0).sent = s.sent ++ l ∧
        ∀ fr ∈ l, fr.cmd ≠ CMD_TICK := by
  intro f
  induction f with
  | zero => intro s r0 l0; exact ⟨[], by simp [tick_loop], by simp⟩
  | succ f ih =>
    intro s r0 l0
    rw [tick_loop]
    rcases hr : cmd_receive_one s r0 l0 with ⟨s1, st, r, l⟩
    obtain ⟨l1, hl1, ht1⟩ : ∃ l1, s1.sent = s.sent ++ l1 ∧
        ∀ fr ∈ l1, fr.cmd ≠ CMD_TICK := by
      have hh := exec_sent (4 * s.inbox.length + 1) (.receive_one r0 l0) s
      rw [show exec (4 * s.inbox.length + 1) (Call.receive_one r0 l0) s =
        cmd_receive_one s r0 l0 from rfl, hr] at hh
      exact hh
    dsimp only
    split_ifs
    · exact ⟨l1, hl1, ht1⟩
    · exact ⟨l1, by simpa [logError] using hl1, ht1⟩
    · obtain ⟨l2, hl2, ht2⟩ := ih (logError s1 errUnhandledInTick) r l
      have h1 : (logError s1 errUnhandledInTick).sent = s.sent ++ l1 := by
        simpa [logError] using hl1
      exact sent_comp h1 ht1 hl2 ht2
    · obtain ⟨l2, hl2, ht2⟩ := ih s1 r l
      exact sent_comp hl1 ht1 hl2 ht2

/-! ### Claim theorems (first group) -/

lemma cru_unhandled_empty (s : ServerState) (rest : List RecvRes) (cm : Nat)
    (ht : s.tconnected = true) (hcm : cm ∉ handledSet)
    (hib : s.inbox = RecvRes.frame cm [] :: rest) :
    cmd_receive_unhandled s =
      ({ s with inbox := rest }, .unhandled, none, 0) := by
  have hcon := connect_of_tconnected s ht
  have hfe : 4 * s.inbox.length = 4 * rest.length + 3 + 1 := by
    rw [hib]
    simp
    ring
  have h1 : exec (4 * s.inbox.length + 1)
      (.receive_one (none : Option (List Nat)) 0) s =
      ({ s with inbox := rest }, .unhandled, none, 0) := by
    rw [exec_rcv_unfold, hcon]
    dsimp only
    rw [hfe, hib]
    dsimp only
    rw [exec_process_unhandled _ _ _ _ _ _ hcm]
    simp
  unfold cmd_receive_unhandled
  exact exec_drain_stop (4 * s.inbox.length + 1) s _ _ _ _ h1 (Or.inl rfl)

lemma public_call_finish_noPC (s : ServerState) (rv : Option Nat)
    (hns : noStart s.inbox) :
    pcCount (public_call_finish s rv).1.sent = pcCount s.sent := by
  unfold public_call_finish cmd_receive_unhandled
  rcases hr : exec (4 * s.inbox.length + 1 + 1) Call.drain s
    with ⟨s2, st, r, l⟩
  have h2 : pcCount s2.sent = pcCount s.sent := by
    have hh := exec_noPC (4 * s.inbox.length + 1 + 1) Call.drain s
      trivial hns
    rw [hr] at hh
    exact hh.1
  dsimp only
  split_ifs <;> exact h2

lemma step_Q (s : ServerState) (op : Op) (hop : op ≠ Op.disconnect false)
    (h : QInv s) : QInv (step s op) := by
  cases op with
  | connect => exact connect_Q s h
  | disconnect e =>
    cases e with
    | true => exact disconnect_true_Q s h
    | false => exact absurd rfl hop
  | cmd_start p =>
    unfold step cmd_start
    exact exec_Q _ _ _ h
  | cmd_reconnect => exact disconnect_true_Q _ h
  | public_call n => exact public_call_Q s n none h
  | tick => exact tick_Q s h

lemma run_Q :
    ∀ (ops : List Op) (s : ServerState),
      (∀ op ∈ ops, op ≠ Op.disconnect false) → QInv s → QInv (run s ops) := by
  intro ops
  induction ops with
  | nil => intro s _ h; exact h
  | cons op ops ih =>
    intro s hops h
    have h1 : QInv (step s op) :=
      step_Q s op (hops op (List.mem_cons_self _ _)) h
    exact ih (step s op) (fun o ho => hops o (List.mem_cons_of_mem _ ho)) h1

/-- Claim C7: `connect()` is idempotent — in every state where the
transport is already connected, `connect` returns true and leaves the
server state unchanged: no announcement frame is sent and no status flag
or other server state changes. -/
theorem claim_C7_connect_idempotent (s : ServerState)
    (h : s.tconnected = true) : connect s = (s, true) :=
  connect_of_tconnected s h

theorem claim_C7_witness :
    connect ({ tconnected := true } : ServerState) =
      (({ tconnected := true } : ServerState), true) :=
  claim_C7_connect_idempotent ({ tconnected := true } : ServerState) rfl

/-- Claim C2 counterexample: the identifier 0x03 (response/reply) belongs
to the request set named by the claim, yet `cmd_process` classifies it as
unhandled, not handled; the claim is false at id 0x03. -/
theorem claim_C2_counterexample :
    CMD_RESPONSE ∈ specRequestSet ∧
      (cmd_process (initState [] []) CMD_RESPONSE [42] none 0).2.1 ≠
        cmd_status.handled := by
  decide

/-- Claim C2 (amended): `cmd_process` returns handled exactly for the ids
ping, print, reconnect, register_call, find_native, invoke_native and
start — the response/reply id 0x03 is deliberately left unhandled as the
reply carrier — and for every other id it returns unhandled with a copy
equal to the input payload and the input length (no copy is made for an
empty payload, leaving the caller's null response and zero length). -/
theorem claim_C2_dispatch_classification (s : ServerState) (cm : Nat)
    (p : List Nat) :
    ((cmd_process s cm p none 0).2.1 = cmd_status.handled ↔
      cm ∈ handledSet) ∧
    (cm ∉ handledSet →
      cmd_process s cm p none 0 =
        (s, cmd_status.unhandled, if p = [] then none else some p,
          if p = [] then 0 else p.length)) := by
  have hcp : cmd_process s cm p none 0 =
      exec (4 * s.inbox.length + 3 + 1) (.process cm p none 0) s := rfl
  constructor
  · constructor
    · intro hh
      by_contra hm
      have h2 := exec_process_unhandled (4 * s.inbox.length + 3) cm p
        none 0 s hm
      rw [hcp, h2] at hh
      simp at hh
    · intro hm
      rw [hcp, exec_process_unfold]
      simp only [handledSet, List.mem_cons, List.not_mem_nil, or_false] at hm
      rcases hm with h | h | h | h | h | h | h <;> subst h <;>
        simp [CMD_PING, CMD_PRINT, CMD_RECONNECT, CMD_REGISTER_CALL,
          CMD_FIND_NATIVE, CMD_INVOKE_NATIVE, CMD_START]
  · intro hm
    rw [hcp]
    exact exec_process_unhandled _ _ _ _ _ _ hm

theorem claim_C2_witness :
    ((cmd_process (initState [] []) CMD_PING [] none 0).2.1 =
        cmd_status.handled ↔ CMD_PING ∈ handledSet) ∧
      cmd_process (initState [] []) CMD_REPLY [7] none 0 =
        (initState [] [], cmd_status.unhandled, some [7], 1) := by
  constructor
  · exact (claim_C2_dispatch_classification (initState [] []) CMD_PING []).1
  · have h := (claim_C2_dispatch_classification (initState [] [])
      CMD_REPLY [7]).2 (by decide)
    simpa using h

/-- Claim C4 counterexample: `disconnect` is a no-op when the client is
not considered connected, so an unexpected disconnect issued in such a
state clears nothing — the claim's unconditional reading is false. -/
theorem claim_C4_counterexample :
    (disconnect ({ clientStarted := true, natives := [[1]] } : ServerState)
        false).natives ≠ [] ∧
      (disconnect ({ clientStarted := true, natives := [[1]] } : ServerState)
        false).clientStarted = true := by
  decide

/-- Claim C4 (amended): for every call of `disconnect` in a state where
the client is considered connected: if expected is false, afterwards
`client_started` is cleared and both registries are empty; if expected is
true, the registries and `client_started` are unchanged; in both cases the
transport is torn down and `client_connected` is cleared. -/
theorem claim_C4_disconnect_effects (s : ServerState)
    (h : is_client_connected s = true) :
    ((disconnect s false).clientStarted = false ∧
      (disconnect s false).natives = [] ∧
      (disconnect s false).callbacks = [] ∧
      (disconnect s false).clientConnected = false ∧
      (disconnect s false).tconnected = false) ∧
    ((disconnect s true).clientStarted = s.clientStarted ∧
      (disconnect s true).natives = s.natives ∧
      (disconnect s true).callbacks = s.callbacks ∧
      (disconnect s true).clientConnected = false ∧
      (disconnect s true).tconnected = false) := by
  unfold disconnect popEnv
  simp [h]

theorem claim_C4_witness :
    (disconnect
      { tconnected := true, clientConnected := true, clientStarted := true,
        natives := [[2]], callbacks := ["x"] }
      false).natives = [] ∧
    (disconnect
      { tconnected := true, clientConnected := true, clientStarted := true,
        natives := [[2]], callbacks := ["x"] }
      true).natives = [[2]] := by
  have h := claim_C4_disconnect_effects
    { tconnected := true, clientConnected := true, clientStarted := true,
      natives := [[2]], callbacks := ["x"] } (by decide)
  exact ⟨h.1.2.1, h.2.2.1⟩

/-- Claim C8: a `public_call` for an event other than game-mode-init,
issued while `client_received_init` is unset, sends zero frames and leaves
the state unchanged except that the game-mode-exit event clears
`server_received_init`. -/
theorem claim_C8_suppressed_before_init (s : ServerState) (name : String)
    (rv : Option Nat) (hn : name ≠ nameGMI)
    (hri : s.clientReceivedInit = false) :
    public_call s name rv =
      (if name = nameGME then { s with serverReceivedInit := false } else s,
        rv) := by
  unfold public_call public_call_toggle
  dsimp only
  rw [if_neg hn]
  by_cases hg : name = nameGME
  · rw [if_pos hg]
    split_ifs with h1 h2 h3
    · rfl
    · rfl
    · exact absurd ⟨hn, hri⟩ h2
    · exact absurd ⟨hn, hri⟩ h2
  · rw [if_neg hg]
    split_ifs with h1 h2 h3
    · rfl
    · rfl
    · exact absurd ⟨hn, hri⟩ h2
    · exact absurd ⟨hn, hri⟩ h2

theorem claim_C8_witness :
    public_call
      { tconnected := true, clientConnected := true, clientStarted := true,
        callbacks := ["OnPlayerConnect"] }
      "OnPlayerConnect" (some 0) =
    ({ tconnected := true, clientConnected := true, clientStarted := true,
        callbacks := ["OnPlayerConnect"] },
      some 0) := by
  have h := claim_C8_suppressed_before_init
    { tconnected := true, clientConnected := true, clientStarted := true,
      callbacks := ["OnPlayerConnect"] }
    "OnPlayerConnect" (some 0) (by decide) rfl
  simpa using h

/-- Claim C10: a zero-length unhandled frame leaves the caller's response
pointer null and the reported length zero in `cmd_process`; the drain
returns that null response, and `public_call`'s reply stage therefore
treats the zero-length reply exactly like receiving no reply at all,
logging an error and leaving the return-value slot untouched. -/
theorem claim_C10_zero_length_reply (s : ServerState) (rest : List RecvRes)
    (rv : Option Nat) (cm : Nat) (hcm : cm ∉ handledSet)
    (ht : s.tconnected = true)
    (hib : s.inbox = RecvRes.frame cm [] :: rest) :
    cmd_process s cm [] none 0 = (s, cmd_status.unhandled, none, 0) ∧
    cmd_receive_unhandled s =
      ({ s with inbox := rest }, cmd_status.unhandled, none, 0) ∧
    public_call_finish s rv =
      (logError { s with inbox := rest } errNoResponse, rv) := by
  have h2 := cru_unhandled_empty s rest cm ht hcm hib
  refine ⟨?_, h2, ?_⟩
  · have hcp : cmd_process s cm [] none 0 =
        exec (4 * s.inbox.length + 3 + 1) (.process cm [] none 0) s := rfl
    rw [hcp, exec_process_unhandled _ _ _ _ _ _ hcm]
    simp
  · unfold public_call_finish
    rw [h2]
    dsimp only
    rw [if_pos (by simp)]

theorem claim_C10_witness :
    public_call_finish
      { tconnected := true, inbox := [RecvRes.frame CMD_REPLY []] }
      (some 9) =
    (logError { tconnected := true } errNoResponse, some 9) := by
  have h := claim_C10_zero_length_reply
    { tconnected := true, inbox := [RecvRes.frame CMD_REPLY []] }
    [] (some 9) CMD_REPLY (by decide) rfl rfl
  exact h.2.2

/-- Claim C6: the drain loop `cmd_receive_unhandled` returns only when a
pull yields unhandled (true, with the reply bytes) or a dead connection
(false); a no-command outcome causes another pull, and a command handled
during the drain (here a ping, answered with a pong) is fully processed
for its side effects and is not treated as the awaited reply. -/
theorem claim_C6_drain_loop (s : ServerState) (rest : List RecvRes)
    (cm : Nat) (p : List Nat) (ht : s.tconnected = true) :
    (s.inbox = RecvRes.no_cmd :: rest →
      cmd_receive_unhandled s =
        cmd_receive_unhandled { s with inbox := rest }) ∧
    (s.inbox = RecvRes.conn_dead :: rest →
      cmd_receive_unhandled s =
        ({ s with inbox := rest }, cmd_status.conn_dead, none, 0)) ∧
    (s.inbox = RecvRes.frame CMD_PING p :: rest →
      cmd_receive_unhandled s = cmd_receive_unhandled
        { s with inbox := rest, sent := s.sent ++ [⟨CMD_PONG, []⟩] }) ∧
    (s.inbox = RecvRes.frame cm p :: rest → cm ∉ handledSet → p ≠ [] →
      cmd_receive_unhandled s =
        ({ s with inbox := rest }, cmd_status.unhandled, some p, p.length)) :=
  ⟨fun hib => cru_no_cmd s rest ht hib,
   fun hib => cru_dead_entry s rest ht hib,
   fun hib => cru_ping s rest p ht hib,
   fun hib hcm hp => cru_unhandled s rest cm p ht hcm hp hib⟩

theorem claim_C6_witness :
    cmd_receive_unhandled
        { tconnected := true, inbox := [RecvRes.no_cmd, RecvRes.conn_dead] } =
      cmd_receive_unhandled
        { tconnected := true, inbox := [RecvRes.conn_dead] } ∧
    cmd_receive_unhandled
        { tconnected := true, inbox := [RecvRes.conn_dead] } =
      ({ tconnected := true }, cmd_status.conn_dead, none, 0) ∧
    cmd_receive_unhandled
        { tconnected := true,
          inbox := [RecvRes.frame CMD_PING [], RecvRes.frame CMD_REPLY [3]] } =
      cmd_receive_unhandled
        { tconnected := true, inbox := [RecvRes.frame CMD_REPLY [3]],
          sent := [⟨CMD_PONG, []⟩] } ∧
    cmd_receive_unhandled
        { tconnected := true, inbox := [RecvRes.frame CMD_REPLY [3]],
          sent := [⟨CMD_PONG, []⟩] } =
      ({ tconnected := true, sent := [⟨CMD_PONG, []⟩] },
        cmd_status.unhandled, some [3], 1) := by
  refine ⟨?_, ?_, ?_, ?_⟩
  · exact (claim_C6_drain_loop
      { tconnected := true, inbox := [RecvRes.no_cmd, RecvRes.conn_dead] }
      [RecvRes.conn_dead] 0 [] rfl).1 rfl
  · exact (claim_C6_drain_loop
      { tconnected := true, inbox := [RecvRes.conn_dead] }
      [] 0 [] rfl).2.1 rfl
  · exact (claim_C6_drain_loop
      { tconnected := true,
        inbox := [RecvRes.frame CMD_PING [], RecvRes.frame CMD_REPLY [3]] }
      [RecvRes.frame CMD_REPLY [3]] 0 [] rfl).2.2.1 rfl
  · exact (claim_C6_drain_loop
      { tconnected := true, inbox := [RecvRes.frame CMD_REPLY [3]],
        sent := [⟨CMD_PONG, []⟩] }
      [] CMD_REPLY [3] rfl).2.2.2 rfl (by decide) (by decide)

/-- Claim C5: in the reply stage of `public_call`, if the drain yields no
reply (failure or null response) or a zero-length reply, an error is
logged and the caller's return-value slot is left unchanged; otherwise,
whenever the reply is at least 5 bytes and its first byte is non-zero (and
the slot exists), the 32-bit value formed from reply bytes 1 through 4 is
written into the slot, and in every other case the slot is unchanged. -/
theorem claim_C5_reply_handling (s1 : ServerState) (rv : Option Nat)
    (s2 : ServerState) (st : cmd_status) (resp : Option (List Nat))
    (len : Nat) (hd : cmd_receive_unhandled s1 = (s2, st, resp, len)) :
    ((st ≠ cmd_status.unhandled ∨ resp = none ∨ len = 0) →
      public_call_finish s1 rv = (logError s2 errNoResponse, rv)) ∧
    (∀ bs, st = cmd_status.unhandled → resp = some bs → len ≠ 0 →
      (public_call_finish s1 rv).2 =
        if 5 ≤ len ∧ bs.headD 0 ≠ 0 ∧ rv.isSome then some (le32 bs)
        else rv) := by
  constructor
  · intro hcase
    unfold public_call_finish
    rw [hd]
    dsimp only
    rw [if_pos hcase]
  · intro bs hst hresp hlen
    subst hst
    subst hresp
    unfold public_call_finish
    rw [hd]
    dsimp only
    rw [if_neg (by simp [hlen])]
    split_ifs with h1 h2 <;> simp_all

theorem claim_C5_witness :
    (public_call_finish
        { tconnected := true,
          inbox := [RecvRes.frame CMD_REPLY [1, 7, 0, 0, 0]] }
        (some 0)).2 = some 7 ∧
    public_call_finish
        { tconnected := true, inbox := [RecvRes.conn_dead] } (some 3) =
      (logError { tconnected := true } errNoResponse, some 3) := by
  constructor
  · have h := (claim_C5_reply_handling
      { tconnected := true,
        inbox := [RecvRes.frame CMD_REPLY [1, 7, 0, 0, 0]] }
      (some 0) { tconnected := true } cmd_status.unhandled
      (some [1, 7, 0, 0, 0]) 5 (by decide)).2
      [1, 7, 0, 0, 0] rfl rfl (by decide)
    rw [h]
    decide
  · exact (claim_C5_reply_handling
      { tconnected := true, inbox := [RecvRes.conn_dead] } (some 3)
      { tconnected := true } cmd_status.conn_dead none 0 (by decide)).1
      (by decide)

/-- Claim C3 counterexample: with the client connected and started but no
remote handler registered for game-mode-init, the serialization is empty
and `public_call` sends zero frames — "always sends exactly one
notification" is false. -/
theorem claim_C3_counterexample :
    is_client_connected
        { tconnected := true, clientConnected := true,
          clientStarted := true } = true ∧
    ({ tconnected := true, clientConnected := true,
        clientStarted := true } : ServerState).clientStarted = true ∧
    (public_call
        { tconnected := true, clientConnected := true,
          clientStarted := true }
        nameGMI none).1.sent = [] := by
  decide

/-- Claim C3 (amended): for a `public_call` of game-mode-init with the
client connected and started and a non-empty serialization, the call
routes through the reply stage from a state in which
`client_received_init` is already set and exactly the public-call
notification frame has been appended, before any drain processing; if no
start command arrives during the drain, that frame is the only public-call
frame the whole call emits. -/
theorem claim_C3_gmi_notification (s : ServerState) (rv : Option Nat)
    (hconn : is_client_connected s = true) (hst : s.clientStarted = true)
    (hfill : fill_call_buffer s.callbacks nameGMI ≠ []) :
    public_call s nameGMI rv = public_call_finish
      (sendFrame
        { s with serverReceivedInit := true, clientReceivedInit := true }
        CMD_PUBLIC_CALL (fill_call_buffer s.callbacks nameGMI)) rv ∧
    (sendFrame
        { s with serverReceivedInit := true, clientReceivedInit := true }
        CMD_PUBLIC_CALL
        (fill_call_buffer s.callbacks nameGMI)).clientReceivedInit = true ∧
    (sendFrame
        { s with serverReceivedInit := true, clientReceivedInit := true }
        CMD_PUBLIC_CALL (fill_call_buffer s.callbacks nameGMI)).sent =
      s.sent ++ [⟨CMD_PUBLIC_CALL, fill_call_buffer s.callbacks nameGMI⟩] ∧
    (noStart s.inbox →
      pcCount (public_call s nameGMI rv).1.sent = pcCount s.sent + 1) := by
  have hroute := public_call_routes_gmi s rv hconn hst hfill
  refine ⟨hroute, rfl, rfl, ?_⟩
  intro hns
  rw [hroute]
  have hfin := public_call_finish_noPC
    (sendFrame
      { s with serverReceivedInit := true, clientReceivedInit := true }
      CMD_PUBLIC_CALL (fill_call_buffer s.callbacks nameGMI)) rv hns
  rw [hfin]
  unfold pcCount sendFrame
  simp [CMD_PUBLIC_CALL]

theorem claim_C3_witness :
    (public_call
        { tconnected := true, clientConnected := true,
          clientStarted := true, callbacks := [nameGMI],
          inbox := [RecvRes.frame CMD_REPLY [1]] }
        nameGMI none).1.sent.length = 1 ∧
    pcCount (public_call
        { tconnected := true, clientConnected := true,
          clientStarted := true, callbacks := [nameGMI],
          inbox := [RecvRes.frame CMD_REPLY [1]] }
        nameGMI none).1.sent = 1 := by
  have h := claim_C3_gmi_notification
    { tconnected := true, clientConnected := true, clientStarted := true,
      callbacks := [nameGMI], inbox := [RecvRes.frame CMD_REPLY [1]] }
    none (by decide) rfl (by decide)
  have h4 := h.2.2.2 (by
    intro cm p hm
    simp at hm
    obtain ⟨h1, h2⟩ := hm
    subst h1
    decide)
  constructor
  · rw [h.1]
    decide
  · rw [h4]
    decide

/-- Claim C9: `tick` sends the heartbeat (tick) notification, with no
payload, exactly when the client is connected and both `client_started`
and `client_received_init` are set — it is the first frame the tick
emits, and no other frame emitted by the tick is a heartbeat; when the
condition fails, the tick emits no heartbeat frame at all. -/
theorem claim_C9_heartbeat (s : ServerState) :
    ((is_client_connected s && s.clientStarted &&
        s.clientReceivedInit) = true →
      ∃ l, (tick s).sent = s.sent ++ ⟨CMD_TICK, []⟩ :: l ∧
        ∀ fr ∈ l, fr.cmd ≠ CMD_TICK) ∧
    ((is_client_connected s && s.clientStarted &&
        s.clientReceivedInit) = false →
      ∃ l, (tick s).sent = s.sent ++ l ∧ ∀ fr ∈ l, fr.cmd ≠ CMD_TICK) := by
  constructor
  · intro hcond
    unfold tick
    rw [if_pos hcond]
    obtain ⟨l, hl, htl⟩ := tick_loop_sent
      ((sendFrame s CMD_TICK []).inbox.length + 1)
      (sendFrame s CMD_TICK []) none 0
    refine ⟨l, ?_, htl⟩
    rw [hl]
    simp [sendFrame]
  · intro hcond
    unfold tick
    rw [if_neg (by simp [hcond])]
    exact tick_loop_sent (s.inbox.length + 1) s none 0

theorem claim_C9_witness :
    (∃ l, (tick
        { tconnected := true, clientConnected := true,
          clientStarted := true, clientReceivedInit := true }).sent =
      (⟨CMD_TICK, []⟩ : Frame) :: l ∧ ∀ fr ∈ l, fr.cmd ≠ CMD_TICK) ∧
    (∃ l, (tick ({ tconnected := true, clientConnected := true } :
        ServerState)).sent = l ∧ ∀ fr ∈ l, fr.cmd ≠ CMD_TICK) := by
  constructor
  · have h := (claim_C9_heartbeat
      { tconnected := true, clientConnected := true, clientStarted := true,
        clientReceivedInit := true }).1 (by decide)
    simpa using h
  · have h := (claim_C9_heartbeat
      { tconnected := true, clientConnected := true }).2 (by decide)
    simpa using h

/-- Claim C1 counterexample: connect, then a start command, then the
game-mode-init public call, then an unexpected disconnect reaches a state
with `client_received_init` set while `client_started` is unset — the
claimed invariant is violated on a reachable state. -/
theorem claim_C1_counterexample :
    (run (initState [] [true, true])
        [Op.connect, Op.cmd_start [], Op.public_call nameGMI,
          Op.disconnect false]).clientReceivedInit = true ∧
    (run (initState [] [true, true])
        [Op.connect, Op.cmd_start [], Op.public_call nameGMI,
          Op.disconnect false]).clientStarted = false := by
  decide

/-- Claim C1 (amended): for every sequence of connect, expected
disconnect, cmd_start, cmd_reconnect, public_call and tick operations
from the initial status — that is, every sequence with no unexpected
disconnect — `client_received_init` is never set while `client_started`
is unset.  An unexpected disconnect clears `client_started` without
clearing `client_received_init` and breaks the invariant. -/
theorem claim_C1_init_invariant (inbox : List RecvRes) (env : List Bool)
    (ops : List Op) (hops : ∀ op ∈ ops, op ≠ Op.disconnect false) :
    (run (initState inbox env) ops).clientReceivedInit = true →
      (run (initState inbox env) ops).clientStarted = true :=
  run_Q ops (initState inbox env) hops (fun h => Bool.noConfusion h)

theorem claim_C1_witness :
    (run (initState [] [true, true])
        [Op.connect, Op.cmd_start [], Op.public_call nameGMI]).clientStarted =
      true :=
  claim_C1_init_invariant [] [true, true]
    [Op.connect, Op.cmd_start [], Op.public_call nameGMI]
    (by decide) (by decide)

end SampSharp
